import Mathlib

/-!
Shallow embedding of the Software-Shop license validation and key-release
core: the MongoDB-backed license registry operations of `src/lib/auth.ts`
(`bindDeviceToLicense`, `getDecryptionKey`, `revokeLicense`,
`reactivateLicense`) and the `SoftwareLicense` ERC-721 contract
(`validateLicense`, the soulbound `_update` override, mint / block / burn).

Modelling conventions:
- MongoDB documents become Lean structures; the two collections become
  functions from id strings to `Option` records.
- Remote ledger calls (`contract.ownerOf`, `contract.revokeLicense`) are
  the outcomes of external I/O; they enter as components of an `Env` value
  (one outcome per token id), mirroring the try/catch structure of the
  TypeScript: a thrown error whose reason contains "invalid token ID" is
  `OwnerResult.invalidToken`, any other throw is `OwnerResult.contractError`.
- JavaScript string truthiness (`if (license.deviceId)`) becomes an
  explicit comparison with the empty string.
- Timestamps (`new Date()`) are abstracted to `Option Unit`: only
  presence / absence is ever observed by the core.
- In the contract, `keccak256(bytes(a)) == keccak256(bytes(b))` is
  modelled as byte-exact string equality `a = b`.
-/

namespace SoftwareShop

/-- Model of Mongo's `ObjectId.isValid` on a string argument: a 12-character
string, or a 24-character hex string. -/
def objectIdIsValid (s : String) : Bool :=
  s.length == 12 ||
    (s.length == 24 && s.toList.all fun c =>
      c.isDigit || ("a" ≤ c.toString && c.toString ≤ "f") ||
        ("A" ≤ c.toString && c.toString ≤ "F"))

/-- The `licensingRules` sub-document stored on a software record. -/
structure LicensingRules where
  ipLock : Bool
  fingerprintLock : Bool
  deriving Repr, DecidableEq

/-- A document of the `software` collection (the fields the core reads). -/
structure Software where
  sellerId : String
  title : String
  licensingRules : LicensingRules
  decryptionKey : String
  fileUrl : String
  deriving Repr, DecidableEq

/-- A document of the `licenses` collection, as created by
`recordLicensePurchase` and mutated by the core operations. -/
structure License where
  softwareId : String
  buyerAddress : String
  tokenId : Nat
  buyerIp : String
  deviceId : String
  status : String
  reason : Option String
  lastViolationDate : Option Unit
  deriving Repr, DecidableEq

/-- The mutable database state: the two collections keyed by id strings. -/
structure DBState where
  licenses : String → Option License
  software : String → Option Software

/-- Write one license document (Mongo `updateOne` with `$set` / `$unset`). -/
def setLicense (st : DBState) (id : String) (l : License) : DBState :=
  { st with licenses := fun k => if k = id then some l else st.licenses k }

/-- Status of the license stored under `id`, if any. -/
def licenseStatus (st : DBState) (id : String) : Option String :=
  (st.licenses id).map License.status

/-- Device id of the license stored under `id`, if any. -/
def licenseDeviceId (st : DBState) (id : String) : Option String :=
  (st.licenses id).map License.deviceId

/-- Outcome of the remote `contract.ownerOf(tokenId)` call in
`getDecryptionKey`: a holder address, a throw whose reason includes
"invalid token ID" (burned or never minted), or any other throw. -/
inductive OwnerResult where
  | holder (address : String)
  | invalidToken
  | contractError
  deriving Repr, DecidableEq

/-- The environment of one request: server configuration flags and the
outcomes of the remote ledger calls, per token id. -/
structure Env where
  rpcConfigured : Bool
  sellerKeyConfigured : Bool
  chain : Nat → OwnerResult
  ledgerRevokeOk : Nat → Bool

/-- Result record of `getDecryptionKey`. -/
structure KeyResult where
  success : Bool
  message : String
  key : Option String
  fileUrl : Option String
  deriving Repr, DecidableEq

/-- Result record of the other registry operations. -/
structure OpResult where
  success : Bool
  message : String
  deriving Repr, DecidableEq

/-- Model of JavaScript `String.prototype.toLowerCase()` as used on wallet
addresses (ASCII hex strings): lower-case every character. -/
def toLowerCase (s : String) : String :=
  String.mk (s.data.map Char.toLower)

/-- Embedding of `bindDeviceToLicense(licenseId, deviceId)` from
`src/lib/auth.ts`: trust-on-first-use device binding.  Returns the result
together with the database state after the call. -/
def bindDeviceToLicense (st : DBState) (licenseId deviceId : String) :
    OpResult × DBState :=
  if licenseId = "" ∨ deviceId = "" then
    (⟨false, "License ID and Device ID are required."⟩, st)
  else if objectIdIsValid licenseId = false then
    (⟨false, "Invalid license ID format."⟩, st)
  else
    match st.licenses licenseId with
    | none => (⟨false, "License not found."⟩, st)
    | some license =>
      if (match st.software license.softwareId with
          | some software => software.licensingRules.fingerprintLock
          | none => false) = false then
        (⟨true, "Device binding is not required for this license."⟩, st)
      else if license.deviceId ≠ "" ∧ license.deviceId ≠ deviceId then
        (⟨false, "This license is already bound to another device."⟩, st)
      else if license.deviceId = "" then
        (⟨true, "Device successfully bound to license."⟩,
          setLicense st licenseId { license with deviceId := deviceId })
      else
        (⟨true, "Device is already correctly bound."⟩, st)

/-- Embedding of `getDecryptionKey(licenseId, deviceId, walletAddress)` from
`src/lib/auth.ts`: the key release gate.  Returns the result together with
the database state after the call (the only write is the drift-correcting
`revoked` update in the `invalidToken` branch). -/
def getDecryptionKey (env : Env) (st : DBState)
    (licenseId deviceId walletAddress : String) : KeyResult × DBState :=
  if licenseId = "" ∨ deviceId = "" ∨ walletAddress = "" then
    (⟨false, "License ID, Device ID, and Wallet Address are required.",
      none, none⟩, st)
  else if env.rpcConfigured = false then
    (⟨false, "The server is not configured to communicate with the blockchain.",
      none, none⟩, st)
  else if objectIdIsValid licenseId = false then
    (⟨false, "Invalid license ID format.", none, none⟩, st)
  else
    match st.licenses licenseId with
    | none => (⟨false, "License not found in the database.", none, none⟩, st)
    | some license =>
      if license.status ≠ "active" then
        (⟨false, "License is not active. Current status: " ++ license.status ++
          ". Contact the seller for assistance.", none, none⟩, st)
      else
        match st.software license.softwareId with
        | none =>
          (⟨false, "Could not find the associated software.", none, none⟩, st)
        | some software =>
          match env.chain license.tokenId with
          | OwnerResult.invalidToken =>
            (⟨false,
              "This license has been revoked and no longer exists on the blockchain.",
              none, none⟩,
              setLicense st licenseId
                { license with
                  status := "revoked",
                  reason := some "Token does not exist (burned)",
                  lastViolationDate := some () })
          | OwnerResult.contractError =>
            (⟨false, "Could not verify license ownership on the blockchain.",
              none, none⟩, st)
          | OwnerResult.holder ownerOfToken =>
            if toLowerCase ownerOfToken ≠ toLowerCase walletAddress then
              (⟨false,
                "Smart contract check failed: The connected wallet is not the owner of this license NFT.",
                none, none⟩, st)
            else if software.licensingRules.fingerprintLock = true ∧
                license.deviceId ≠ "" ∧ license.deviceId ≠ deviceId then
              (⟨false, "Device mismatch. This license is not bound to this device.",
                none, none⟩, st)
            else if software.decryptionKey = "" ∨ software.fileUrl = "" then
              (⟨false,
                "Could not find the software\x27s decryption key or file URL.",
                none, none⟩, st)
            else
              (⟨true, "Key retrieved successfully.",
                some software.decryptionKey, some software.fileUrl⟩, st)

/-- Embedding of `revokeLicense(licenseId)` from `src/lib/auth.ts`: burns the
token on the ledger, then marks the registry record `revoked`.  A throwing
ledger call (`env.ledgerRevokeOk` false) lands in the catch block before the
registry write. -/
def revokeLicense (env : Env) (st : DBState) (licenseId : String) :
    OpResult × DBState :=
  if env.sellerKeyConfigured = false ∨ env.rpcConfigured = false then
    (⟨false, "Server is not configured for blockchain transactions."⟩, st)
  else if licenseId = "" ∨ objectIdIsValid licenseId = false then
    (⟨false, "Invalid license ID."⟩, st)
  else
    match st.licenses licenseId with
    | none => (⟨false, "License not found."⟩, st)
    | some license =>
      if env.ledgerRevokeOk license.tokenId = false then
        (⟨false, "Failed to revoke license."⟩, st)
      else
        (⟨true,
          "License " ++ toString license.tokenId ++ " has been permanently revoked."⟩,
          setLicense st licenseId
            { license with status := "revoked", reason := some "Seller revoked" })

/-- Embedding of `reactivateLicense(licenseId)` from `src/lib/auth.ts`. -/
def reactivateLicense (st : DBState) (licenseId : String) :
    OpResult × DBState :=
  if licenseId = "" ∨ objectIdIsValid licenseId = false then
    (⟨false, "Invalid license ID."⟩, st)
  else
    match st.licenses licenseId with
    | none => (⟨false, "License not found."⟩, st)
    | some license =>
      if license.status = "revoked" then
        (⟨false, "Cannot reactivate a revoked (burned) license."⟩, st)
      else
        (⟨true, "License has been reactivated."⟩,
          setLicense st licenseId
            { license with
              status := "active", reason := none, lastViolationDate := none })

/-- One core registry operation together with the inputs of its call; used
to reason about arbitrary sequences of subsequent calls. -/
inductive Op where
  | getKey (env : Env) (licenseId deviceId walletAddress : String)
  | bindDevice (licenseId deviceId : String)
  | revoke (env : Env) (licenseId : String)
  | reactivate (licenseId : String)

/-- The database state after running one operation. -/
def runOp (st : DBState) (op : Op) : DBState :=
  match op with
  | Op.getKey env lid dev addr => (getDecryptionKey env st lid dev addr).2
  | Op.bindDevice lid dev => (bindDeviceToLicense st lid dev).2
  | Op.revoke env lid => (revokeLicense env st lid).2
  | Op.reactivate lid => (reactivateLicense st lid).2

/-- The database state after running a sequence of operations. -/
def runOps (st : DBState) (ops : List Op) : DBState :=
  ops.foldl runOp st

end SoftwareShop

namespace SoftwareLicense

/-- On-chain state of the `SoftwareLicense` contract
(`contracts/SoftwareLicense.sol`): ERC-721 owner map (`0` is the zero
address, meaning nonexistent or burned), blocked flags, locality locks and
token URIs, plus the sequential mint counter. -/
structure LedgerState where
  nextTokenId : Nat
  owners : Nat → Nat
  isBlocked : Nat → Bool
  ipLock : Nat → String
  tokenURI : Nat → String

/-- ERC-721 `_exists`: the token has a non-zero owner. -/
def tokenExists (c : LedgerState) (tokenId : Nat) : Bool :=
  c.owners tokenId != 0

/-- Embedding of the overridden `_update(to, tokenId, auth)`: reverts
(`none`) unless the token is being minted (current holder is the zero
address) or burned (`to` is the zero address); otherwise writes the new
holder. -/
def _update (c : LedgerState) (toAddr tokenId : Nat) : Option LedgerState :=
  if c.owners tokenId ≠ 0 ∧ toAddr ≠ 0 then
    none
  else
    some { c with owners := fun t => if t = tokenId then toAddr else c.owners t }

/-- Embedding of `mintLicense(buyer, tokenURI_, ipAddress)` (privileged
caller assumed): assigns the next sequential id and mints through
`_update`. -/
def mintLicense (c : LedgerState) (buyer : Nat) (uri ipAddress : String) :
    Option (LedgerState × Nat) :=
  let tokenId := c.nextTokenId
  let c1 := { c with nextTokenId := c.nextTokenId + 1 }
  match _update c1 buyer tokenId with
  | none => none
  | some c2 =>
    some ({ c2 with
      tokenURI := fun t => if t = tokenId then uri else c2.tokenURI t,
      ipLock := fun t =>
        if t = tokenId then (if ipAddress ≠ "" then ipAddress else c2.ipLock t)
        else c2.ipLock t }, tokenId)

/-- Embedding of `blockLicense(tokenId, isBlocked)` (privileged caller
assumed). -/
def blockLicense (c : LedgerState) (tokenId : Nat) (flag : Bool) : LedgerState :=
  { c with isBlocked := fun t => if t = tokenId then flag else c.isBlocked t }

/-- Embedding of `revokeLicense(tokenId)` (privileged caller assumed):
requires existence, then burns through `_update` to the zero address. -/
def revokeLicense (c : LedgerState) (tokenId : Nat) : Option LedgerState :=
  if tokenExists c tokenId = false then none
  else _update c 0 tokenId

/-- Embedding of the read-only `validateLicense(tokenId, ipAddress)`:
reverts (`none`) on a nonexistent token; otherwise false when blocked,
false when a non-empty locality lock differs from the supplied value
(byte-exact comparison), true otherwise. -/
def validateLicense (c : LedgerState) (tokenId : Nat) (ipAddress : String) :
    Option Bool :=
  if tokenExists c tokenId = false then none
  else if c.isBlocked tokenId then some false
  else if c.ipLock tokenId ≠ "" ∧ c.ipLock tokenId ≠ ipAddress then some false
  else some true

end SoftwareLicense

namespace SoftwareShop

/-- Fixture: a device-locked software record used by concrete witnesses. -/
def swW : Software :=
  { sellerId := "cccccccccccc", title := "App",
    licensingRules := { ipLock := false, fingerprintLock := true },
    decryptionKey := "K", fileUrl := "ipfs://f" }

/-- Fixture: a software record with ipLock enabled and fingerprintLock off. -/
def swIpLocked : Software :=
  { swW with licensingRules := { ipLock := true, fingerprintLock := false } }

/-- Fixture: an active license bound to device "dev1". -/
def licW : License :=
  { softwareId := "bbbbbbbbbbbb", buyerAddress := "0xabc", tokenId := 7,
    buyerIp := "1.2.3.4", deviceId := "dev1", status := "active",
    reason := none, lastViolationDate := none }

/-- Fixture: a revoked license. -/
def licRevoked : License :=
  { licW with status := "revoked", reason := some "Seller revoked" }

/-- Fixture: a license the buyer has soft-deleted. -/
def licDeleted : License := { licW with status := "deleted_by_user" }

/-- Fixture: a blocked license. -/
def licBlocked : License :=
  { licW with status := "blocked", reason := some "Device violation" }

/-- Fixture: an active license with no device bound yet. -/
def licUnbound : License := { licW with deviceId := "" }

/-- Build a database state holding one license and one software record under
fixed ids. -/
def oneLicenseState (l : License) (sw : Software) : DBState :=
  { licenses := fun k => if k = "aaaaaaaaaaaa" then some l else none,
    software := fun k => if k = "bbbbbbbbbbbb" then some sw else none }

/-- Fixture environment: fully configured, the ledger reports holder "0xABC"
for every token, and ledger revoke calls succeed. -/
def envW : Env :=
  { rpcConfigured := true, sellerKeyConfigured := true,
    chain := fun _ => OwnerResult.holder "0xABC",
    ledgerRevokeOk := fun _ => true }

/-- Fixture environment whose ownership read reports every token burned. -/
def envBurned : Env := { envW with chain := fun _ => OwnerResult.invalidToken }

/-- Fixture environment whose ledger revoke call fails. -/
def envLedgerDown : Env := { envW with ledgerRevokeOk := fun _ => false }

/-- Fixture environment whose ledger reports the lower-cased holder. -/
def envOwnerLower : Env :=
  { envW with chain := fun _ => OwnerResult.holder "0xabc" }

end SoftwareShop

namespace SoftwareLicense

/-- Fixture on-chain state: token 0 minted to address 5 with locality lock
"1.2.3.4"; token 1 minted to address 6 and blocked; nothing else minted. -/
def ledgerW : LedgerState :=
  { nextTokenId := 2,
    owners := fun t => if t = 0 then 5 else if t = 1 then 6 else 0,
    isBlocked := fun t => t == 1,
    ipLock := fun t => if t = 0 then "1.2.3.4" else "",
    tokenURI := fun _ => "" }

end SoftwareLicense


namespace SoftwareShop

lemma licenseStatus_setLicense (st : DBState) (id' : String) (l : License)
    (id : String) :
    licenseStatus (setLicense st id' l) id =
      if id = id' then some l.status else licenseStatus st id := by
  by_cases h : id = id' <;> simp [licenseStatus, setLicense, h]

lemma bindDeviceToLicense_snd (st : DBState) (lid dev : String) :
    (bindDeviceToLicense st lid dev).2 = st ∨
      ∃ license, st.licenses lid = some license ∧
        (bindDeviceToLicense st lid dev).2 =
          setLicense st lid { license with deviceId := dev } := by
  unfold bindDeviceToLicense
  split
  · exact Or.inl rfl
  split
  · exact Or.inl rfl
  split
  · exact Or.inl rfl
  rename_i license hlic
  split
  · exact Or.inl rfl
  split
  · exact Or.inl rfl
  split
  · exact Or.inr ⟨license, hlic, rfl⟩
  · exact Or.inl rfl

lemma getDecryptionKey_snd (env : Env) (st : DBState) (lid dev addr : String) :
    (getDecryptionKey env st lid dev addr).2 = st ∨
      ∃ license, st.licenses lid = some license ∧
        (getDecryptionKey env st lid dev addr).2 =
          setLicense st lid
            { license with
              status := "revoked",
              reason := some "Token does not exist (burned)",
              lastViolationDate := some () } := by
  unfold getDecryptionKey
  split
  · exact Or.inl rfl
  split
  · exact Or.inl rfl
  split
  · exact Or.inl rfl
  split
  · exact Or.inl rfl
  rename_i license hlic
  split
  · exact Or.inl rfl
  split
  · exact Or.inl rfl
  rename_i software hsw
  split
  · exact Or.inr ⟨license, hlic, rfl⟩
  · exact Or.inl rfl
  rename_i ownerOfToken
  split
  · exact Or.inl rfl
  split
  · exact Or.inl rfl
  split
  · exact Or.inl rfl
  · exact Or.inl rfl

lemma revokeLicense_snd (env : Env) (st : DBState) (lid : String) :
    (revokeLicense env st lid).2 = st ∨
      ∃ license, st.licenses lid = some license ∧
        (revokeLicense env st lid).2 =
          setLicense st lid
            { license with status := "revoked", reason := some "Seller revoked" } := by
  unfold revokeLicense
  split
  · exact Or.inl rfl
  split
  · exact Or.inl rfl
  split
  · exact Or.inl rfl
  rename_i license hlic
  split
  · exact Or.inl rfl
  · exact Or.inr ⟨license, hlic, rfl⟩

lemma reactivateLicense_snd (st : DBState) (lid : String) :
    (reactivateLicense st lid).2 = st ∨
      ∃ license, st.licenses lid = some license ∧ license.status ≠ "revoked" ∧
        (reactivateLicense st lid).2 =
          setLicense st lid
            { license with
              status := "active", reason := none, lastViolationDate := none } := by
  unfold reactivateLicense
  split
  · exact Or.inl rfl
  split
  · exact Or.inl rfl
  rename_i license hlic
  split
  · exact Or.inl rfl
  rename_i hnr
  exact Or.inr ⟨license, hlic, hnr, rfl⟩

lemma runOp_preserves_revoked (st : DBState) (op : Op) (id : String)
    (h : licenseStatus st id = some "revoked") :
    licenseStatus (runOp st op) id = some "revoked" := by
  cases op with
  | getKey env lid dev addr =>
    show licenseStatus (getDecryptionKey env st lid dev addr).2 id = some "revoked"
    rcases getDecryptionKey_snd env st lid dev addr with heq | ⟨license, hlic, heq⟩
    · rw [heq]; exact h
    · rw [heq, licenseStatus_setLicense]
      by_cases hid : id = lid <;> simp [hid, h]
  | bindDevice lid dev =>
    show licenseStatus (bindDeviceToLicense st lid dev).2 id = some "revoked"
    rcases bindDeviceToLicense_snd st lid dev with heq | ⟨license, hlic, heq⟩
    · rw [heq]; exact h
    · rw [heq, licenseStatus_setLicense]
      by_cases hid : id = lid
      · subst hid
        simp only [licenseStatus, hlic, Option.map_some'] at h
        simpa using h
      · simp [hid, h]
  | revoke env lid =>
    show licenseStatus (revokeLicense env st lid).2 id = some "revoked"
    rcases revokeLicense_snd env st lid with heq | ⟨license, hlic, heq⟩
    · rw [heq]; exact h
    · rw [heq, licenseStatus_setLicense]
      by_cases hid : id = lid <;> simp [hid, h]
  | reactivate lid =>
    show licenseStatus (reactivateLicense st lid).2 id = some "revoked"
    rcases reactivateLicense_snd st lid with heq | ⟨license, hlic, hnr, heq⟩
    · rw [heq]; exact h
    · rw [heq, licenseStatus_setLicense]
      by_cases hid : id = lid
      · subst hid
        simp only [licenseStatus, hlic, Option.map_some'] at h
        exact absurd (Option.some.inj h) hnr
      · simp [hid, h]

lemma runOps_preserves_revoked (st : DBState) (ops : List Op) (id : String)
    (h : licenseStatus st id = some "revoked") :
    licenseStatus (runOps st ops) id = some "revoked" := by
  induction ops generalizing st with
  | nil => exact h
  | cons op rest ih =>
    exact ih (runOp st op) (runOp_preserves_revoked st op id h)

lemma getDecryptionKey_success_active (env : Env) (st : DBState)
    (lid dev addr : String)
    (h : ((getDecryptionKey env st lid dev addr).1).success = true) :
    licenseStatus st lid = some "active" := by
  unfold getDecryptionKey at h
  split at h
  · simp at h
  split at h
  · simp at h
  split at h
  · simp at h
  split at h
  · simp at h
  rename_i license hlic
  split at h
  · simp at h
  rename_i hstat
  split at h
  · simp at h
  rename_i software hsw
  split at h
  · simp at h
  · simp at h
  split at h
  · simp at h
  split at h
  · simp at h
  split at h
  · simp at h
  simp only [licenseStatus, hlic, Option.map_some']
  simp only [ne_eq, not_not] at hstat
  rw [hstat]

lemma reactivateLicense_success_not_revoked (st : DBState) (lid : String)
    (h : ((reactivateLicense st lid).1).success = true) :
    licenseStatus st lid ≠ some "revoked" := by
  unfold reactivateLicense at h
  split at h
  · simp at h
  split at h
  · simp at h
  rename_i license hlic
  split at h
  · simp at h
  rename_i hnr
  simp only [licenseStatus, hlic, Option.map_some']
  intro hc
  exact hnr (Option.some.inj hc)

end SoftwareShop

namespace SoftwareShop

/-- C2: once a license's registry status equals "revoked", no sequence of
subsequent core operations moves it out of "revoked", and every subsequent
`reactivateLicense` or `getDecryptionKey` call on that license fails. -/
theorem revoked_is_terminal (env : Env) (st : DBState) (id : String)
    (ops : List Op) (h : licenseStatus st id = some "revoked") :
    licenseStatus (runOps st ops) id = some "revoked" ∧
    (∀ dev addr,
      ((getDecryptionKey env (runOps st ops) id dev addr).1).success = false) ∧
    ((reactivateLicense (runOps st ops) id).1).success = false := by
  have hrev := runOps_preserves_revoked st ops id h
  refine ⟨hrev, ?_, ?_⟩
  · intro dev addr
    cases hsb : ((getDecryptionKey env (runOps st ops) id dev addr).1).success with
    | false => rfl
    | true =>
      have hact := getDecryptionKey_success_active env (runOps st ops) id dev addr hsb
      rw [hrev] at hact
      exact absurd hact (by decide)
  · cases hsb : ((reactivateLicense (runOps st ops) id).1).success with
    | false => rfl
    | true =>
      have hnr := reactivateLicense_success_not_revoked (runOps st ops) id hsb
      exact absurd hrev hnr

/-- Witness for C2: a concrete revoked license stays revoked across a
reactivate / bind / revoke sequence, and subsequent key release and
reactivation calls fail. -/
theorem revoked_is_terminal_witness :
    licenseStatus (oneLicenseState licRevoked swW) "aaaaaaaaaaaa" = some "revoked" ∧
    ((getDecryptionKey envW
        (runOps (oneLicenseState licRevoked swW)
          [Op.reactivate "aaaaaaaaaaaa", Op.bindDevice "aaaaaaaaaaaa" "dev2",
            Op.revoke envW "aaaaaaaaaaaa"])
        "aaaaaaaaaaaa" "dev1" "0xabc").1).success = false ∧
    ((reactivateLicense
        (runOps (oneLicenseState licRevoked swW)
          [Op.reactivate "aaaaaaaaaaaa", Op.bindDevice "aaaaaaaaaaaa" "dev2",
            Op.revoke envW "aaaaaaaaaaaa"])
        "aaaaaaaaaaaa").1).success = false :=
  ⟨by decide,
    (revoked_is_terminal envW (oneLicenseState licRevoked swW) "aaaaaaaaaaaa"
      [Op.reactivate "aaaaaaaaaaaa", Op.bindDevice "aaaaaaaaaaaa" "dev2",
        Op.revoke envW "aaaaaaaaaaaa"] (by decide)).2.1 "dev1" "0xabc",
    (revoked_is_terminal envW (oneLicenseState licRevoked swW) "aaaaaaaaaaaa"
      [Op.reactivate "aaaaaaaaaaaa", Op.bindDevice "aaaaaaaaaaaa" "dev2",
        Op.revoke envW "aaaaaaaaaaaa"] (by decide)).2.2⟩

end SoftwareShop

namespace SoftwareShop

/-- C5 counterexample: `reactivateLicense` succeeds on a license whose status
is "deleted_by_user" and turns it active; the code guards only against
"revoked". -/
theorem reactivate_accepts_deleted_by_user :
    ((reactivateLicense (oneLicenseState licDeleted swW) "aaaaaaaaaaaa").1).success = true ∧
    licenseStatus (reactivateLicense (oneLicenseState licDeleted swW) "aaaaaaaaaaaa").2
      "aaaaaaaaaaaa" = some "active" := by decide

/-- C5 amended: `reactivateLicense` rejects a revoked license (leaving the
state unchanged) and succeeds on every other existing license — including
blocked ones, which return to active, but also "deleted_by_user" ones. -/
theorem reactivateLicense_spec (st : DBState) (lid : String) (license : License)
    (hne : lid ≠ "") (hv : objectIdIsValid lid = true)
    (hlic : st.licenses lid = some license) :
    (license.status = "revoked" →
      (reactivateLicense st lid).1 =
        ⟨false, "Cannot reactivate a revoked (burned) license."⟩ ∧
      (reactivateLicense st lid).2 = st) ∧
    (license.status ≠ "revoked" →
      ((reactivateLicense st lid).1).success = true ∧
      licenseStatus (reactivateLicense st lid).2 lid = some "active") := by
  have hred : reactivateLicense st lid =
      (if license.status = "revoked" then
        (⟨false, "Cannot reactivate a revoked (burned) license."⟩, st)
      else
        (⟨true, "License has been reactivated."⟩,
          setLicense st lid
            { license with
              status := "active", reason := none, lastViolationDate := none })) := by
    unfold reactivateLicense
    rw [if_neg (by simp [hne, hv])]
    simp only [hlic]
  constructor
  · intro hs
    rw [hred, if_pos hs]
    exact ⟨rfl, rfl⟩
  · intro hs
    rw [hred, if_neg hs]
    refine ⟨rfl, ?_⟩
    rw [licenseStatus_setLicense]
    simp

/-- Witness for the amended C5 at a concrete blocked license. -/
theorem reactivateLicense_spec_witness :
    objectIdIsValid "aaaaaaaaaaaa" = true ∧
    (((reactivateLicense (oneLicenseState licBlocked swW) "aaaaaaaaaaaa").1).success = true ∧
      licenseStatus (reactivateLicense (oneLicenseState licBlocked swW) "aaaaaaaaaaaa").2
        "aaaaaaaaaaaa" = some "active") :=
  ⟨by decide,
    (reactivateLicense_spec (oneLicenseState licBlocked swW) "aaaaaaaaaaaa" licBlocked
      (by decide) (by decide) (by decide)).2 (by decide)⟩

lemma licenseDeviceId_setLicense (st : DBState) (id' : String) (l : License)
    (id : String) :
    licenseDeviceId (setLicense st id' l) id =
      if id = id' then some l.deviceId else licenseDeviceId st id := by
  by_cases h : id = id' <;> simp [licenseDeviceId, setLicense, h]

/-- C3: trust-on-first-use device binding.  With device locking enabled:
an empty stored device id is set to the supplied one and the call succeeds;
a matching stored id succeeds without changing the state; a differing
non-empty stored id fails with the device-mismatch message and the stored
id is never overwritten. -/
theorem bindDevice_trust_on_first_use (st : DBState) (lid dev : String)
    (license : License) (software : Software)
    (hne : lid ≠ "") (hdev : dev ≠ "") (hv : objectIdIsValid lid = true)
    (hlic : st.licenses lid = some license)
    (hsw : st.software license.softwareId = some software)
    (hfp : software.licensingRules.fingerprintLock = true) :
    (license.deviceId = "" →
      ((bindDeviceToLicense st lid dev).1).success = true ∧
      licenseDeviceId (bindDeviceToLicense st lid dev).2 lid = some dev) ∧
    (license.deviceId = dev →
      ((bindDeviceToLicense st lid dev).1).success = true ∧
      (bindDeviceToLicense st lid dev).2 = st) ∧
    (license.deviceId ≠ "" → license.deviceId ≠ dev →
      (bindDeviceToLicense st lid dev).1 =
        ⟨false, "This license is already bound to another device."⟩ ∧
      (bindDeviceToLicense st lid dev).2 = st) := by
  have hred : bindDeviceToLicense st lid dev =
      (if license.deviceId ≠ "" ∧ license.deviceId ≠ dev then
        (⟨false, "This license is already bound to another device."⟩, st)
      else if license.deviceId = "" then
        (⟨true, "Device successfully bound to license."⟩,
          setLicense st lid { license with deviceId := dev })
      else
        (⟨true, "Device is already correctly bound."⟩, st)) := by
    unfold bindDeviceToLicense
    rw [if_neg (by simp [hne, hdev]), if_neg (by simp [hv])]
    simp only [hlic, hsw, hfp]
    simp
  refine ⟨?_, ?_, ?_⟩
  · intro h0
    rw [hred, if_neg (by simp [h0]), if_pos h0]
    refine ⟨rfl, ?_⟩
    rw [licenseDeviceId_setLicense]
    simp
  · intro heq
    by_cases h0 : license.deviceId = ""
    · exact absurd (heq.symm.trans h0) hdev
    · rw [hred, if_neg (by simp [heq]), if_neg h0]
      exact ⟨rfl, rfl⟩
  · intro h0 h1
    rw [hred, if_pos ⟨h0, h1⟩]
    exact ⟨rfl, rfl⟩

/-- Witness for C3 at a concrete unbound license: first bind wins. -/
theorem bindDevice_trust_on_first_use_witness :
    objectIdIsValid "aaaaaaaaaaaa" = true ∧
    (((bindDeviceToLicense (oneLicenseState licUnbound swW) "aaaaaaaaaaaa" "dev1").1).success = true ∧
      licenseDeviceId
        (bindDeviceToLicense (oneLicenseState licUnbound swW) "aaaaaaaaaaaa" "dev1").2
        "aaaaaaaaaaaa" = some "dev1") :=
  ⟨by decide,
    (bindDevice_trust_on_first_use (oneLicenseState licUnbound swW) "aaaaaaaaaaaa" "dev1"
      licUnbound swW (by decide) (by decide) (by decide) (by decide) (by decide)
      (by decide)).1 (by decide)⟩

/-- C1, evaluated at the claim's failing input: with device locking on and
the license bound to "dev1", a key request from device "dev2" (the owner
check passing) is denied with the device-mismatch message, yet the stored
status remains "active" and the database state is unchanged — the code
performs no blocked transition and never invokes `sendViolationEmail`. -/
theorem deviceMismatch_denies_without_blocking :
    (getDecryptionKey envW (oneLicenseState licW swW) "aaaaaaaaaaaa" "dev2" "0xabc").1 =
      ⟨false, "Device mismatch. This license is not bound to this device.",
        none, none⟩ ∧
    licenseStatus
      (getDecryptionKey envW (oneLicenseState licW swW) "aaaaaaaaaaaa" "dev2" "0xabc").2
      "aaaaaaaaaaaa" = some "active" ∧
    (getDecryptionKey envW (oneLicenseState licW swW) "aaaaaaaaaaaa" "dev2" "0xabc").2 =
      oneLicenseState licW swW :=
  ⟨by decide, by decide, rfl⟩

end SoftwareShop

namespace SoftwareShop

/-- C4: drift correction.  When the registry shows an active license but the
ownership read reports the token burned, the key request is denied and the
registry record is left with status "revoked". -/
theorem driftCorrection_revokes_registry (env : Env) (st : DBState)
    (lid dev addr : String) (license : License) (software : Software)
    (hne : lid ≠ "") (hdev : dev ≠ "") (haddr : addr ≠ "")
    (hrpc : env.rpcConfigured = true) (hv : objectIdIsValid lid = true)
    (hlic : st.licenses lid = some license) (hstat : license.status = "active")
    (hsw : st.software license.softwareId = some software)
    (hburn : env.chain license.tokenId = OwnerResult.invalidToken) :
    ((getDecryptionKey env st lid dev addr).1).success = false ∧
    licenseStatus (getDecryptionKey env st lid dev addr).2 lid = some "revoked" := by
  have hred : getDecryptionKey env st lid dev addr =
      (⟨false,
        "This license has been revoked and no longer exists on the blockchain.",
        none, none⟩,
        setLicense st lid
          { license with
            status := "revoked",
            reason := some "Token does not exist (burned)",
            lastViolationDate := some () }) := by
    unfold getDecryptionKey
    rw [if_neg (by simp [hne, hdev, haddr]), if_neg (by simp [hrpc]),
      if_neg (by simp [hv])]
    simp only [hlic]
    rw [if_neg (by simp [hstat])]
    simp only [hsw, hburn]
  rw [hred]
  refine ⟨rfl, ?_⟩
  rw [licenseStatus_setLicense]
  simp

/-- Witness for C4: a concrete active license whose token the ledger reports
burned is denied and left revoked. -/
theorem driftCorrection_revokes_registry_witness :
    licenseStatus (oneLicenseState licW swW) "aaaaaaaaaaaa" = some "active" ∧
    envBurned.chain licW.tokenId = OwnerResult.invalidToken ∧
    (((getDecryptionKey envBurned (oneLicenseState licW swW) "aaaaaaaaaaaa" "dev1" "0xabc").1).success = false ∧
      licenseStatus
        (getDecryptionKey envBurned (oneLicenseState licW swW) "aaaaaaaaaaaa" "dev1" "0xabc").2
        "aaaaaaaaaaaa" = some "revoked") :=
  ⟨by decide, by decide,
    driftCorrection_revokes_registry envBurned (oneLicenseState licW swW)
      "aaaaaaaaaaaa" "dev1" "0xabc" licW swW (by decide) (by decide) (by decide)
      (by decide) (by decide) (by decide) (by decide) (by decide) (by decide)⟩

/-- C6: `revokeLicense` is atomic towards the ledger: when the ledger revoke
call fails the operation returns failure and the registry is unchanged; the
registry record is written "revoked" only after a succeeding ledger call. -/
theorem revokeLicense_atomic (env : Env) (st : DBState) (lid : String)
    (license : License)
    (hcfg : env.sellerKeyConfigured = true) (hrpc : env.rpcConfigured = true)
    (hne : lid ≠ "") (hv : objectIdIsValid lid = true)
    (hlic : st.licenses lid = some license) :
    (env.ledgerRevokeOk license.tokenId = false →
      ((revokeLicense env st lid).1).success = false ∧
      (revokeLicense env st lid).2 = st) ∧
    (env.ledgerRevokeOk license.tokenId = true →
      ((revokeLicense env st lid).1).success = true ∧
      licenseStatus (revokeLicense env st lid).2 lid = some "revoked") := by
  have hred : revokeLicense env st lid =
      (if env.ledgerRevokeOk license.tokenId = false then
        (⟨false, "Failed to revoke license."⟩, st)
      else
        (⟨true,
          "License " ++ toString license.tokenId ++ " has been permanently revoked."⟩,
          setLicense st lid
            { license with status := "revoked", reason := some "Seller revoked" })) := by
    unfold revokeLicense
    rw [if_neg (by simp [hcfg, hrpc]), if_neg (by simp [hne, hv])]
    simp only [hlic]
  constructor
  · intro hl
    rw [hred, if_pos hl]
    exact ⟨rfl, rfl⟩
  · intro hl
    rw [hred, if_neg (by simp [hl])]
    refine ⟨rfl, ?_⟩
    rw [licenseStatus_setLicense]
    simp

/-- Witness for C6: with the ledger revoke call failing, a concrete revoke
request fails and leaves the database state untouched. -/
theorem revokeLicense_atomic_witness :
    envLedgerDown.ledgerRevokeOk licW.tokenId = false ∧
    (((revokeLicense envLedgerDown (oneLicenseState licW swW) "aaaaaaaaaaaa").1).success = false ∧
      (revokeLicense envLedgerDown (oneLicenseState licW swW) "aaaaaaaaaaaa").2 =
        oneLicenseState licW swW) :=
  ⟨by decide,
    (revokeLicense_atomic envLedgerDown (oneLicenseState licW swW) "aaaaaaaaaaaa"
      licW (by decide) (by decide) (by decide) (by decide) (by decide)).1 (by decide)⟩

/-- C7 counterexample: with ipLock enabled on the software and a locality
recorded at mint, a key release succeeds outright — the gate takes no
locality input, so there is no requester locality at which it would deny
with a locality-mismatch outcome. -/
theorem gate_releases_key_despite_ipLock :
    swIpLocked.licensingRules.ipLock = true ∧
    licUnbound.buyerIp = "1.2.3.4" ∧
    (getDecryptionKey envW (oneLicenseState licUnbound swIpLocked)
        "aaaaaaaaaaaa" "dev9" "0xabc").1 =
      ⟨true, "Key retrieved successfully.", some "K", some "ipfs://f"⟩ := by decide

/-- C7 amended: `getDecryptionKey` performs no locality check — whenever the
registry status, ownership, device and key-material checks pass, the key is
returned even though ipLock is enabled, whatever locality was stored at
mint. -/
theorem gate_has_no_locality_check (env : Env) (st : DBState)
    (lid dev addr : String) (license : License) (software : Software)
    (hne : lid ≠ "") (hdev : dev ≠ "") (haddr : addr ≠ "")
    (hrpc : env.rpcConfigured = true) (hv : objectIdIsValid lid = true)
    (hlic : st.licenses lid = some license) (hstat : license.status = "active")
    (hsw : st.software license.softwareId = some software)
    ( _hiplock : software.licensingRules.ipLock = true)
    (hchain : env.chain license.tokenId = OwnerResult.holder addr)
    (hdevok : license.deviceId = "" ∨ license.deviceId = dev)
    (hkey : software.decryptionKey ≠ "") (hurl : software.fileUrl ≠ "") :
    (getDecryptionKey env st lid dev addr).1 =
      ⟨true, "Key retrieved successfully.", some software.decryptionKey,
        some software.fileUrl⟩ := by
  unfold getDecryptionKey
  rw [if_neg (by simp [hne, hdev, haddr]), if_neg (by simp [hrpc]),
    if_neg (by simp [hv])]
  simp only [hlic]
  rw [if_neg (by simp [hstat])]
  simp only [hsw, hchain]
  rw [if_neg (by simp)]
  rcases hdevok with h | h
  · rw [if_neg (by simp [h]), if_neg (by simp [hkey, hurl])]
  · rw [if_neg (by simp [h]), if_neg (by simp [hkey, hurl])]

/-- Witness for the amended C7 at a concrete ipLock-enabled license. -/
theorem gate_has_no_locality_check_witness :
    swIpLocked.licensingRules.ipLock = true ∧
    (getDecryptionKey envOwnerLower (oneLicenseState licUnbound swIpLocked)
        "aaaaaaaaaaaa" "dev9" "0xabc").1 =
      ⟨true, "Key retrieved successfully.", some swIpLocked.decryptionKey,
        some swIpLocked.fileUrl⟩ :=
  ⟨by decide,
    gate_has_no_locality_check envOwnerLower (oneLicenseState licUnbound swIpLocked)
      "aaaaaaaaaaaa" "dev9" "0xabc" licUnbound swIpLocked (by decide) (by decide)
      (by decide) (by decide) (by decide) (by decide) (by decide) (by decide)
      (by decide) (by decide) (Or.inl (by decide)) (by decide) (by decide)⟩

end SoftwareShop

namespace SoftwareShop

/-- C8: the ownership gate compares the ledger-reported holder and the
requester wallet case-insensitively.  A holder that differs from the
requester after lower-casing is denied as not the owner, with no key and no
state change; a holder equal to the requester up to letter case passes the
ownership check, the outcome then being decided solely by the device and
key-material checks. -/
theorem owner_check_case_insensitive (env : Env) (st : DBState)
    (lid dev addr holderAddr : String) (license : License) (software : Software)
    (hne : lid ≠ "") (hdev : dev ≠ "") (haddr : addr ≠ "")
    (hrpc : env.rpcConfigured = true) (hv : objectIdIsValid lid = true)
    (hlic : st.licenses lid = some license) (hstat : license.status = "active")
    (hsw : st.software license.softwareId = some software)
    (hchain : env.chain license.tokenId = OwnerResult.holder holderAddr) :
    (toLowerCase holderAddr ≠ toLowerCase addr →
      (getDecryptionKey env st lid dev addr).1 =
        ⟨false,
          "Smart contract check failed: The connected wallet is not the owner of this license NFT.",
          none, none⟩ ∧
      (getDecryptionKey env st lid dev addr).2 = st) ∧
    (toLowerCase holderAddr = toLowerCase addr →
      (getDecryptionKey env st lid dev addr).1 =
        (if software.licensingRules.fingerprintLock = true ∧
            license.deviceId ≠ "" ∧ license.deviceId ≠ dev then
          ⟨false, "Device mismatch. This license is not bound to this device.",
            none, none⟩
        else if software.decryptionKey = "" ∨ software.fileUrl = "" then
          ⟨false, "Could not find the software\x27s decryption key or file URL.",
            none, none⟩
        else
          ⟨true, "Key retrieved successfully.", some software.decryptionKey,
            some software.fileUrl⟩)) := by
  have hred : getDecryptionKey env st lid dev addr =
      (if toLowerCase holderAddr ≠ toLowerCase addr then
        (⟨false,
          "Smart contract check failed: The connected wallet is not the owner of this license NFT.",
          none, none⟩, st)
      else if software.licensingRules.fingerprintLock = true ∧
          license.deviceId ≠ "" ∧ license.deviceId ≠ dev then
        (⟨false, "Device mismatch. This license is not bound to this device.",
          none, none⟩, st)
      else if software.decryptionKey = "" ∨ software.fileUrl = "" then
        (⟨false, "Could not find the software\x27s decryption key or file URL.",
          none, none⟩, st)
      else
        (⟨true, "Key retrieved successfully.", some software.decryptionKey,
          some software.fileUrl⟩, st)) := by
    unfold getDecryptionKey
    rw [if_neg (by simp [hne, hdev, haddr]), if_neg (by simp [hrpc]),
      if_neg (by simp [hv])]
    simp only [hlic]
    rw [if_neg (by simp [hstat])]
    simp only [hsw, hchain]
  constructor
  · intro hmm
    rw [hred, if_pos hmm]
    exact ⟨rfl, rfl⟩
  · intro hok
    rw [hred, if_neg (by simp [hok])]
    by_cases hA : software.licensingRules.fingerprintLock = true ∧
        license.deviceId ≠ "" ∧ license.deviceId ≠ dev
    · rw [if_pos hA, if_pos hA]
    · rw [if_neg hA, if_neg hA]
      by_cases hB : software.decryptionKey = "" ∨ software.fileUrl = ""
      · rw [if_pos hB, if_pos hB]
      · rw [if_neg hB, if_neg hB]

/-- Witness for C8: the ledger holder "0xABC" passes the ownership check for
requester "0xabc" and the key is released. -/
theorem owner_check_case_insensitive_witness :
    toLowerCase "0xABC" = toLowerCase "0xabc" ∧
    (getDecryptionKey envW (oneLicenseState licW swW) "aaaaaaaaaaaa" "dev1" "0xabc").1 =
      (if swW.licensingRules.fingerprintLock = true ∧
          licW.deviceId ≠ "" ∧ licW.deviceId ≠ "dev1" then
        ⟨false, "Device mismatch. This license is not bound to this device.",
          none, none⟩
      else if swW.decryptionKey = "" ∨ swW.fileUrl = "" then
        ⟨false, "Could not find the software\x27s decryption key or file URL.",
          none, none⟩
      else
        ⟨true, "Key retrieved successfully.", some swW.decryptionKey,
          some swW.fileUrl⟩) :=
  ⟨by decide,
    (owner_check_case_insensitive envW (oneLicenseState licW swW) "aaaaaaaaaaaa"
      "dev1" "0xabc" "0xABC" licW swW (by decide) (by decide) (by decide)
      (by decide) (by decide) (by decide) (by decide) (by decide) (by decide)).2
      (by decide)⟩

end SoftwareShop

namespace SoftwareLicense

/-- C9: `validateLicense` on an existing token returns false when the token
is blocked; otherwise, when a non-empty locality lock is stored, it returns
false unless the supplied locality equals the lock byte-exactly; otherwise
it returns true. -/
theorem validateLicense_spec (c : LedgerState) (tokenId : Nat) (ip : String)
    (hex : tokenExists c tokenId = true) :
    (c.isBlocked tokenId = true → validateLicense c tokenId ip = some false) ∧
    (c.isBlocked tokenId = false → c.ipLock tokenId ≠ "" →
      ip ≠ c.ipLock tokenId → validateLicense c tokenId ip = some false) ∧
    (c.isBlocked tokenId = false →
      (c.ipLock tokenId = "" ∨ ip = c.ipLock tokenId) →
      validateLicense c tokenId ip = some true) := by
  unfold validateLicense
  rw [if_neg (by simp [hex])]
  refine ⟨?_, ?_, ?_⟩
  · intro hb
    rw [if_pos hb]
  · intro hb hlock hneq
    rw [if_neg (by simp [hb]), if_pos ⟨hlock, fun h => hneq h.symm⟩]
  · intro hb hok
    rw [if_neg (by simp [hb])]
    rcases hok with h | h
    · rw [if_neg (by simp [h])]
    · rw [if_neg (by simp [h])]

/-- Witness for C9 at the fixture ledger: token 0 carries lock "1.2.3.4",
so "1.2.3.5" is rejected and the byte-exact "1.2.3.4" is accepted. -/
theorem validateLicense_spec_witness :
    tokenExists ledgerW 0 = true ∧
    validateLicense ledgerW 0 "1.2.3.5" = some false ∧
    validateLicense ledgerW 0 "1.2.3.4" = some true :=
  ⟨by decide,
    (validateLicense_spec ledgerW 0 "1.2.3.5" (by decide)).2.1 (by decide)
      (by decide) (by decide),
    (validateLicense_spec ledgerW 0 "1.2.3.4" (by decide)).2.2 (by decide)
      (Or.inr (by decide))⟩

/-- C10: soulbound transfer guard — `_update` on a minted token (non-zero
holder) reverts for every non-zero destination; the transition to the zero
address (burn) succeeds and clears the holder. -/
theorem minted_token_nontransferable (c : LedgerState) (tokenId toAddr : Nat)
    (hmint : c.owners tokenId ≠ 0) :
    (toAddr ≠ 0 → _update c toAddr tokenId = none) ∧
    ∃ c2, _update c 0 tokenId = some c2 ∧ c2.owners tokenId = 0 := by
  constructor
  · intro hto
    unfold _update
    rw [if_pos ⟨hmint, hto⟩]
  · unfold _update
    rw [if_neg (by simp)]
    exact ⟨_, rfl, by simp⟩

/-- Witness for C10: transferring minted token 0 of the fixture ledger to
address 9 reverts. -/
theorem minted_token_nontransferable_witness :
    ledgerW.owners 0 ≠ 0 ∧ _update ledgerW 9 0 = none :=
  ⟨by decide, (minted_token_nontransferable ledgerW 0 9 (by decide)).1 (by decide)⟩

end SoftwareLicense
